import Mathlib

/-!
Shallow embedding of `src/demo.py` (llm-transl8r): the prompt builder /
translation client `translate_text` and the `/translate` HTTP handler
`translate`, together with theorems settling the specification claims.

Modelling conventions:
* Python strings are Lean `String`; `str.strip()` is `strip` below, which
  drops whitespace characters from both ends.
* JSON request-body values are modelled by `Json` (string values and
  string-valued objects, which is all the handler's fields use); the result
  of Flask's `request.get_json()` is `Option Json`, with `none` for a body
  that parses to no object (invalid JSON / JSON null).
* The OpenAI client is a parameter `client : Client`, a function from the
  request to either an error (network / auth failure, as a message string)
  or a `ChatResponse`; a choice's `message.content` is `Option String`
  since the API may return null content.
* Python exceptions escaping a function are modelled by `PyError`; the
  handler's result is `HandlerResult`: either an HTTP `response` or a
  `raised` uncaught exception propagating out of the handler.
* Outbound calls are logged: both functions also return the list of chat
  requests sent, so that "zero outbound calls" is a statement about the log.
-/

namespace Demo

/-- Python `str.strip()`: remove leading and trailing whitespace. -/
def strip (s : String) : String :=
  String.mk (((s.data.dropWhile Char.isWhitespace).reverse.dropWhile
    Char.isWhitespace).reverse)

/-- One chat message: `{"role": ..., "content": ...}` (demo.py lines 35-36). -/
structure ChatMessage where
  role : String
  content : String
  deriving DecidableEq

/-- The argument of `client.chat.completions.create` (demo.py lines 32-40). -/
structure ChatRequest where
  model : String
  messages : List ChatMessage
  max_tokens : Nat
  temperature : ℚ
  deriving DecidableEq

/-- The `message` of a completion choice; `content` may be null. -/
structure ChoiceMessage where
  content : Option String
  deriving DecidableEq

/-- One element of `response.choices`. -/
structure Choice where
  message : ChoiceMessage
  deriving DecidableEq

/-- The chat-completion response consumed by `translate_text` (line 42). -/
structure ChatResponse where
  choices : List Choice
  deriving DecidableEq

/-- The upstream API: maps the request sent to a response, or to an error
message when the call fails (network unreachable, authentication rejected). -/
abbrev Client := ChatRequest → Except String ChatResponse

/-- A Python exception escaping the code: `AttributeError` (`.strip()` or
`.get` on `None`/non-object, `.content` of `None`), `IndexError`
(`choices[0]` on an empty list), or an API client error. -/
inductive PyError where
  | attributeError
  | indexError
  | apiError (msg : String)
  deriving DecidableEq

/-- The f-string `system_message` of demo.py lines 15-28, verbatim,
with `{source_language}` and `{target_language}` interpolated. -/
def system_message (source_language target_language : String) : String :=
  "\nYou are a professional translator proficient in translating "
    ++ source_language ++ " text into " ++ target_language ++ ".\n"
    ++ "Your task is to provide an accurate and natural-sounding translation of the given "
    ++ source_language ++ " text into " ++ target_language ++ ".\n\n"
    ++ "Instructions:\n"
    ++ "- Only provide the translated text.\n"
    ++ "- Do not include the original " ++ source_language ++ " text.\n"
    ++ "- Do not add any explanations, notes, or extra information.\n"
    ++ "- Do not start or end the response with phrases like \x27Translation:\x27, \x27Here is the translation:\x27, etc.\n"
    ++ "- Ensure proper grammar, spelling, and punctuation in " ++ target_language ++ ".\n"
    ++ "- Preserve the original meaning and tone of the text.\n\n"
    ++ "If the text contains idioms, expressions, or cultural references, translate them appropriately so they make sense to a native "
    ++ target_language ++ " speaker.\n"

/-- The single chat request built and sent by `translate_text`
(demo.py lines 32-40): model "gpt-4", a system message holding the trimmed
instruction, a user message holding the trimmed input text,
`max_tokens=1000`, `temperature=0.3`. -/
def translate_text_request (text source_language target_language : String) :
    ChatRequest where
  model := "gpt-4"
  messages :=
    [⟨"system", strip (system_message source_language target_language)⟩,
     ⟨"user", strip text⟩]
  max_tokens := 1000
  temperature := 3 / 10

/-- `translate_text` (demo.py lines 14-42): builds the request, issues it
once, and returns `response.choices[0].message.content.strip()`.  The second
component is the log of chat requests sent.  `choices[0]` on an empty list is
`IndexError`; `.strip()` on null content is `AttributeError`; a failing API
call surfaces as `apiError`. -/
def translate_text (client : Client) (text source_language target_language : String) :
    Except PyError String × List ChatRequest :=
  (match client (translate_text_request text source_language target_language) with
   | .error e => .error (.apiError e)
   | .ok response =>
     match response.choices with
     | [] => .error .indexError
     | c :: _ =>
       match c.message.content with
       | none => .error .attributeError
       | some s => .ok (strip s),
   [translate_text_request text source_language target_language])

/-- A JSON value as the handler sees it: a string, or an object whose fields
are string-valued (the only shapes the handler's three fields use). -/
inductive Json where
  | str (s : String)
  | obj (fields : List (String × String))
  deriving DecidableEq

/-- Dict field lookup, Python `dict.get(key)`: the value when the key is
present, `None` (`Option.none`) otherwise. -/
def jsonGet (fields : List (String × String)) (key : String) : Option String :=
  (fields.find? (fun kv => kv.1 = key)).map Prod.snd

/-- Python `data.get(key)`: field lookup on a dict; on a non-object (e.g. a
JSON string body) attribute access raises `AttributeError`. -/
def dataGet (data : Json) (key : String) : Except PyError (Option String) :=
  match data with
  | .str _ => .error .attributeError
  | .obj fields => .ok (jsonGet fields key)

/-- Python truthiness of a string-or-None value: `None` and `""` are falsy,
every other string is truthy (so a whitespace-only string is truthy). -/
def truthy : Option String → Bool
  | none => false
  | some s => s ≠ ""

/-- The handler's outcome: an HTTP response (status code and JSON-object
body as key/value pairs), or an uncaught Python exception propagating out of
the handler (the source has no try/except around the outbound call). -/
inductive HandlerResult where
  | response (status : Nat) (body : List (String × String))
  | raised (e : PyError)
  deriving DecidableEq

/-- The `/translate` handler `translate` (demo.py lines 45-66).  Input is
the result of `request.get_json()` (`none` when no JSON object was parsed).
Steps, in source order: `None` body → 400 "Invalid JSON input"; extract
`source_text`, `source_language`, `target_language` (raising on a non-object
body); sentinel check → 400 "Please select both source and target
languages"; falsy-field check → 400 "Invalid input parameters"; otherwise
call `translate_text` and return 200 with original/translated/languages.
The second component is the log of chat requests sent. -/
def translate (client : Client) (body : Option Json) :
    HandlerResult × List ChatRequest :=
  match body with
  | none => (.response 400 [("error", "Invalid JSON input")], [])
  | some data =>
    match dataGet data "source_text" with
    | .error e => (.raised e, [])
    | .ok source_text =>
      match dataGet data "source_language" with
      | .error e => (.raised e, [])
      | .ok source_language =>
        match dataGet data "target_language" with
        | .error e => (.raised e, [])
        | .ok target_language =>
          if source_language = some "Select one" ∨ target_language = some "Select one" then
            (.response 400 [("error", "Please select both source and target languages")], [])
          else if ¬ truthy source_text ∨ ¬ truthy source_language ∨ ¬ truthy target_language then
            (.response 400 [("error", "Invalid input parameters")], [])
          else
            match source_text, source_language, target_language with
            | some st, some sl, some tl =>
              match translate_text client st sl tl with
              | (.error e, log) => (.raised e, log)
              | (.ok translated_text, log) =>
                (.response 200
                  [("original", st), ("translated", translated_text),
                   ("source_language", sl), ("target_language", tl)], log)
            | _, _, _ =>
              -- unreachable: the falsy-field guard above ensures all three
              -- fields are present; were one `None`, `.strip()` on it would
              -- raise AttributeError before any request is sent
              (.raised .attributeError, [])

/-- A run of the service: each inbound request is handled independently by
the same handler over the same read-only client configuration; there is no
other process-wide state (demo.py lines 7-11, 45-66). -/
def serve (client : Client) (bodies : List (Option Json)) : List HandlerResult :=
  bodies.map (fun b => (translate client b).1)

/-- A stubbed upstream that always answers with one choice whose content is
the fixed string `s`. -/
def stubClient (s : String) : Client := fun _ => .ok ⟨[⟨⟨some s⟩⟩]⟩

/-- A stubbed upstream whose call always fails with error message `e`
(e.g. network unreachable or authentication rejected). -/
def failingClient (e : String) : Client := fun _ => .error e

/-- A stubbed upstream returning a malformed response: an empty choices
list, so `choices[0]` raises IndexError. -/
def emptyChoicesClient : Client := fun _ => .ok ⟨[]⟩

/-- A stubbed upstream returning a malformed response: one choice whose
message content is null, so `.strip()` on it raises AttributeError. -/
def nullContentClient : Client := fun _ => .ok ⟨[⟨⟨none⟩⟩]⟩

end Demo

/-! ## Helper lemmas -/

namespace Demo

set_option maxRecDepth 10000

/-- `strip` yields the empty string exactly when every character of the
input is whitespace. -/
theorem strip_eq_empty_iff (s : String) :
    strip s = "" ↔ ∀ c ∈ s.data, c.isWhitespace := by
  have h1 : strip s = "" ↔
      ((s.data.dropWhile Char.isWhitespace).reverse.dropWhile
        Char.isWhitespace).reverse = [] := by
    constructor
    · intro h; exact congrArg String.data h
    · intro h; unfold strip; rw [h]
  have h2 : ((s.data.dropWhile Char.isWhitespace).reverse.dropWhile
      Char.isWhitespace).reverse =
      List.rdropWhile Char.isWhitespace (s.data.dropWhile Char.isWhitespace) := rfl
  rw [h1, h2, List.rdropWhile_eq_nil_iff]
  constructor
  · intro h c hc
    rw [← List.takeWhile_append_dropWhile (p := Char.isWhitespace)
      (l := s.data)] at hc
    rcases List.mem_append.mp hc with hc | hc
    · exact List.mem_takeWhile_imp hc
    · exact h c hc
  · intro h c hc
    refine h c ?_
    rw [← List.takeWhile_append_dropWhile (p := Char.isWhitespace) (l := s.data)]
    exact List.mem_append.mpr (Or.inr hc)

/-- Value of `translate_text` when the upstream call succeeds and the first
choice carries string content `s`. -/
theorem translate_text_eq_of_content (client : Client)
    (text source_language target_language s : String) (resp : ChatResponse)
    (c : Choice) (rest : List Choice)
    (hcall : client (translate_text_request text source_language target_language)
      = .ok resp)
    (hchoices : resp.choices = c :: rest)
    (hcontent : c.message.content = some s) :
    translate_text client text source_language target_language =
      (.ok (strip s),
       [translate_text_request text source_language target_language]) := by
  unfold translate_text
  rw [hcall]
  dsimp only
  rw [hchoices]
  dsimp only
  rw [hcontent]

/-- Value of `translate_text` when the upstream call fails. -/
theorem translate_text_eq_of_error (client : Client)
    (text source_language target_language e : String)
    (hcall : client (translate_text_request text source_language target_language)
      = .error e) :
    translate_text client text source_language target_language =
      (.error (.apiError e),
       [translate_text_request text source_language target_language]) := by
  unfold translate_text
  rw [hcall]

/-- Value of `translate_text` when the upstream response is malformed with
an empty choices list: `choices[0]` raises IndexError. -/
theorem translate_text_eq_of_no_choices (client : Client)
    (text source_language target_language : String) (resp : ChatResponse)
    (hcall : client (translate_text_request text source_language target_language)
      = .ok resp)
    (hchoices : resp.choices = []) :
    translate_text client text source_language target_language =
      (.error .indexError,
       [translate_text_request text source_language target_language]) := by
  unfold translate_text
  rw [hcall]
  dsimp only
  rw [hchoices]

/-- Value of `translate_text` when the upstream response is malformed with
null content in the first choice: `.strip()` on it raises AttributeError. -/
theorem translate_text_eq_of_null_content (client : Client)
    (text source_language target_language : String) (resp : ChatResponse)
    (c : Choice) (rest : List Choice)
    (hcall : client (translate_text_request text source_language target_language)
      = .ok resp)
    (hchoices : resp.choices = c :: rest)
    (hcontent : c.message.content = none) :
    translate_text client text source_language target_language =
      (.error .attributeError,
       [translate_text_request text source_language target_language]) := by
  unfold translate_text
  rw [hcall]
  dsimp only
  rw [hchoices]
  dsimp only
  rw [hcontent]

/-- Every handler outcome is a 400 response with an empty outbound log, a
raised exception, or a 200 response. -/
theorem translate_outcomes (client : Client) (body : Option Json) :
    ((translate client body).2 = [] ∧
      ∃ m, (translate client body).1 = .response 400 [("error", m)]) ∨
    (∃ e, (translate client body).1 = .raised e) ∨
    (∃ b, (translate client body).1 = .response 200 b) := by
  cases body with
  | none => exact Or.inl ⟨rfl, "Invalid JSON input", rfl⟩
  | some data =>
    cases data with
    | str s => exact Or.inr (Or.inl ⟨.attributeError, rfl⟩)
    | obj fields =>
      simp only [translate, dataGet]
      split
      · exact Or.inl ⟨rfl, _, rfl⟩
      · split
        · exact Or.inl ⟨rfl, _, rfl⟩
        · split
          · split
            · exact Or.inr (Or.inl ⟨_, rfl⟩)
            · exact Or.inr (Or.inr ⟨_, rfl⟩)
          · exact Or.inr (Or.inl ⟨_, rfl⟩)

/-! ## Claim theorems -/

/-- C1: every call of `translate_text` sends exactly one chat-completion
request, whose message list is exactly a system message holding the stripped
instruction built from the source and target language followed by a user
message holding the stripped input text, with `max_tokens = 1000` and
`temperature = 0.3`. -/
theorem translate_text_sends_one_request (client : Client)
    (text source_language target_language : String) :
    (translate_text client text source_language target_language).2 =
      [translate_text_request text source_language target_language] ∧
    (translate_text_request text source_language target_language).messages =
      [⟨"system", strip (system_message source_language target_language)⟩,
       ⟨"user", strip text⟩] ∧
    (translate_text_request text source_language target_language).max_tokens
      = 1000 ∧
    (translate_text_request text source_language target_language).temperature
      = 3 / 10 :=
  ⟨rfl, rfl, rfl, rfl⟩

/-- C2 counterexample: with valid non-empty text "Hello" and non-empty
languages, an upstream response whose first choice's content is the
whitespace-only string "   " makes `translate_text` return the empty
string — the returned string is not always non-empty. -/
theorem translate_text_empty_result_cex :
    (translate_text (stubClient "   ") "Hello" "English" "French").1
      = .ok "" ∧
    "Hello" ≠ "" ∧ "English" ≠ "" ∧ "French" ≠ "" :=
  ⟨rfl, by decide, by decide, by decide⟩

/-- C2 (amended): whenever the upstream call succeeds and the first choice
carries content `s`, `translate_text` returns exactly `s` with leading and
trailing whitespace removed; the result is non-empty iff `s` contains at
least one non-whitespace character (so it can be empty). -/
theorem translate_text_returns_stripped_content (client : Client)
    (text source_language target_language s : String) (resp : ChatResponse)
    (c : Choice) (rest : List Choice)
    (hcall : client (translate_text_request text source_language target_language)
      = .ok resp)
    (hchoices : resp.choices = c :: rest)
    (hcontent : c.message.content = some s) :
    (translate_text client text source_language target_language).1
      = .ok (strip s) ∧
    (strip s ≠ "" ↔ ∃ ch ∈ s.data, ¬ ch.isWhitespace) := by
  constructor
  · rw [translate_text_eq_of_content client text source_language
      target_language s resp c rest hcall hchoices hcontent]
  · constructor
    · intro h
      by_contra hc
      push_neg at hc
      exact h ((strip_eq_empty_iff s).mpr hc)
    · rintro ⟨ch, hmem, hws⟩ h
      exact hws ((strip_eq_empty_iff s).mp h ch hmem)

/-- C2 witness: with upstream content "  Bonjour  ", `translate_text`
returns "Bonjour", which contains a non-whitespace character. -/
theorem translate_text_returns_stripped_content_witness :
    (translate_text (stubClient "  Bonjour  ") "Hello" "English" "French").1
      = .ok (strip "  Bonjour  ") ∧
    (strip "  Bonjour  " ≠ "" ↔ ∃ ch ∈ "  Bonjour  ".data, ¬ ch.isWhitespace) :=
  translate_text_returns_stripped_content (stubClient "  Bonjour  ")
    "Hello" "English" "French" "  Bonjour  " ⟨[⟨⟨some "  Bonjour  "⟩⟩]⟩
    ⟨⟨some "  Bonjour  "⟩⟩ [] rfl rfl rfl

/-- C3: whenever the handler answers with a 400 response, its outbound call
log is empty: no request was sent to the translation client. -/
theorem validation_error_no_outbound_call (client : Client)
    (body : Option Json) (rbody : List (String × String))
    (h : (translate client body).1 = .response 400 rbody) :
    (translate client body).2 = [] := by
  rcases translate_outcomes client body with ⟨hlog, -⟩ | ⟨e, he⟩ | ⟨b, hb⟩
  · exact hlog
  · rw [he] at h
    exact absurd h (by simp)
  · rw [hb] at h
    exact absurd h (by simp)

/-- C3 witness: a body that parsed to no JSON object yields a 400 response,
and the outbound call log is empty. -/
theorem validation_error_no_outbound_call_witness :
    (translate (stubClient "ok") none).1 =
      .response 400 [("error", "Invalid JSON input")] ∧
    (translate (stubClient "ok") none).2 = [] :=
  ⟨rfl, validation_error_no_outbound_call (stubClient "ok") none
    [("error", "Invalid JSON input")] rfl⟩

/-- C4 counterexample: a whitespace-only `source_text` is truthy in Python,
so it is NOT rejected with 400 "Invalid input parameters": the handler
proceeds, sends one outbound request and returns 200. -/
theorem whitespace_only_text_accepted_cex :
    (translate (stubClient "Bonjour") (some (.obj
      [("source_text", "   "), ("source_language", "English"),
       ("target_language", "French")]))).1 =
      .response 200 [("original", "   "), ("translated", "Bonjour"),
        ("source_language", "English"), ("target_language", "French")] ∧
    (translate (stubClient "Bonjour") (some (.obj
      [("source_text", "   "), ("source_language", "English"),
       ("target_language", "French")]))).2 =
      [translate_text_request "   " "English" "French"] :=
  ⟨rfl, rfl⟩

/-- C4 (amended): for an object body with no sentinel language, a missing or
empty (Python-falsy) `source_text` or `target_language` yields 400 with
"Invalid input parameters" and no outbound call; a whitespace-only text is
truthy and is not rejected by this check. -/
theorem missing_or_empty_field_yields_400 (client : Client)
    (fields : List (String × String))
    (hsl : jsonGet fields "source_language" ≠ some "Select one")
    (htl : jsonGet fields "target_language" ≠ some "Select one")
    (h : truthy (jsonGet fields "source_text") = false ∨
         truthy (jsonGet fields "target_language") = false) :
    (translate client (some (.obj fields))).1 =
      .response 400 [("error", "Invalid input parameters")] ∧
    (translate client (some (.obj fields))).2 = [] := by
  simp only [translate, dataGet]
  rw [if_neg (not_or.mpr ⟨hsl, htl⟩), if_pos]
  · exact ⟨rfl, rfl⟩
  · rcases h with h | h
    · exact Or.inl (by simp [h])
    · exact Or.inr (Or.inr (by simp [h]))

/-- C4 witness: the spec's concrete scenario: empty `source_text` with
languages "English"/"French" yields 400 "Invalid input parameters" and no
outbound call. -/
theorem missing_or_empty_field_yields_400_witness :
    (translate (stubClient "ok") (some (.obj
      [("source_text", ""), ("source_language", "English"),
       ("target_language", "French")]))).1 =
      .response 400 [("error", "Invalid input parameters")] ∧
    (translate (stubClient "ok") (some (.obj
      [("source_text", ""), ("source_language", "English"),
       ("target_language", "French")]))).2 = [] :=
  missing_or_empty_field_yields_400 (stubClient "ok")
    [("source_text", ""), ("source_language", "English"),
     ("target_language", "French")]
    (by decide) (by decide) (Or.inl (by decide))

/-- C5: if either language field equals the sentinel "Select one", the
handler returns 400 with "Please select both source and target languages"
and makes no outbound call; no hypothesis about the text field is needed,
so the sentinel check takes precedence over the missing/empty-field check. -/
theorem sentinel_language_yields_400 (client : Client)
    (fields : List (String × String))
    (h : jsonGet fields "source_language" = some "Select one" ∨
         jsonGet fields "target_language" = some "Select one") :
    (translate client (some (.obj fields))).1 =
      .response 400 [("error", "Please select both source and target languages")] ∧
    (translate client (some (.obj fields))).2 = [] := by
  simp only [translate, dataGet]
  rw [if_pos h]
  exact ⟨rfl, rfl⟩

/-- C5 witness: a sentinel source language together with a missing text
field receives the sentinel message (precedence over "Invalid input
parameters"), with no outbound call. -/
theorem sentinel_language_yields_400_witness :
    (translate (stubClient "ok") (some (.obj
      [("source_language", "Select one"), ("target_language", "French")]))).1 =
      .response 400 [("error", "Please select both source and target languages")] ∧
    (translate (stubClient "ok") (some (.obj
      [("source_language", "Select one"), ("target_language", "French")]))).2
      = [] :=
  sentinel_language_yields_400 (stubClient "ok")
    [("source_language", "Select one"), ("target_language", "French")]
    (Or.inl (by decide))

/-- C6 counterexample: a request with non-empty text "Hello" and target
"French" but no `source_language` field does NOT proceed to translation:
the handler returns 400 "Invalid input parameters" and makes no outbound
call (there is no implicit "English" default). -/
theorem omitted_source_language_rejected_cex :
    (translate (stubClient "Bonjour") (some (.obj
      [("source_text", "Hello"), ("target_language", "French")]))).1 =
      .response 400 [("error", "Invalid input parameters")] ∧
    (translate (stubClient "Bonjour") (some (.obj
      [("source_text", "Hello"), ("target_language", "French")]))).2 = [] ∧
    "Hello" ≠ "" ∧ "French" ≠ "" :=
  ⟨rfl, rfl, by decide, by decide⟩

/-- C6 (amended): `source_language` is required, not optional: for every
object body without a `source_language` field (and no sentinel target), the
handler returns 400 "Invalid input parameters" and makes no outbound call,
regardless of the text and target fields. -/
theorem omitted_source_language_yields_400 (client : Client)
    (fields : List (String × String))
    (hsl : jsonGet fields "source_language" = none)
    (htl : jsonGet fields "target_language" ≠ some "Select one") :
    (translate client (some (.obj fields))).1 =
      .response 400 [("error", "Invalid input parameters")] ∧
    (translate client (some (.obj fields))).2 = [] := by
  simp only [translate, dataGet]
  rw [if_neg (not_or.mpr ⟨by rw [hsl]; simp, htl⟩),
    if_pos (Or.inr (Or.inl (by simp [hsl, truthy])))]
  exact ⟨rfl, rfl⟩

/-- C6 witness: the omitted-source-language body with non-empty text and
target yields 400 "Invalid input parameters" and no outbound call. -/
theorem omitted_source_language_yields_400_witness :
    (translate (stubClient "ok") (some (.obj
      [("source_text", "Hello"), ("target_language", "French")]))).1 =
      .response 400 [("error", "Invalid input parameters")] ∧
    (translate (stubClient "ok") (some (.obj
      [("source_text", "Hello"), ("target_language", "French")]))).2 = [] :=
  omitted_source_language_yields_400 (stubClient "ok")
    [("source_text", "Hello"), ("target_language", "French")]
    (by decide) (by decide)

/-- C7: for every request that passes validation (all three fields present,
non-empty, no sentinel), the handler returns 200 with `original` equal to
the submitted text exactly as received, `translated` equal to the
translation client's result, and the languages as submitted. -/
theorem valid_request_yields_200 (client : Client)
    (fields : List (String × String)) (st sl tl s : String)
    (resp : ChatResponse) (c : Choice) (rest : List Choice)
    (hst : jsonGet fields "source_text" = some st)
    (hsl : jsonGet fields "source_language" = some sl)
    (htl : jsonGet fields "target_language" = some tl)
    (hstne : st ≠ "") (hslne : sl ≠ "") (htlne : tl ≠ "")
    (hslsent : sl ≠ "Select one") (htlsent : tl ≠ "Select one")
    (hcall : client (translate_text_request st sl tl) = .ok resp)
    (hchoices : resp.choices = c :: rest)
    (hcontent : c.message.content = some s) :
    (translate client (some (.obj fields))).1 =
      .response 200 [("original", st), ("translated", strip s),
        ("source_language", sl), ("target_language", tl)] ∧
    (translate_text client st sl tl).1 = .ok (strip s) := by
  have htt := translate_text_eq_of_content client st sl tl s resp c rest
    hcall hchoices hcontent
  constructor
  · simp only [translate, dataGet, hst, hsl, htl, Option.some.injEq]
    rw [if_neg (not_or.mpr ⟨hslsent, htlsent⟩),
      if_neg (by simp [truthy, hstne, hslne, htlne]), htt]
  · rw [htt]

/-- C7 witness: the spec's concrete scenario: "Break a leg!" to Spanish with
a stub answering "¡Buena suerte!" yields
200 with original "Break a leg!" and translated "¡Buena suerte!". -/
theorem valid_request_yields_200_witness :
    (translate (stubClient "¡Buena suerte!") (some (.obj
      [("source_text", "Break a leg!"), ("source_language", "English"),
       ("target_language", "Spanish")]))).1 =
      .response 200 [("original", "Break a leg!"),
        ("translated", "¡Buena suerte!"),
        ("source_language", "English"), ("target_language", "Spanish")] ∧
    (translate_text (stubClient "¡Buena suerte!")
      "Break a leg!" "English" "Spanish").1 = .ok "¡Buena suerte!" :=
  valid_request_yields_200 (stubClient "¡Buena suerte!")
    [("source_text", "Break a leg!"), ("source_language", "English"),
     ("target_language", "Spanish")]
    "Break a leg!" "English" "Spanish" "¡Buena suerte!"
    ⟨[⟨⟨some "¡Buena suerte!"⟩⟩]⟩ ⟨⟨some "¡Buena suerte!"⟩⟩ []
    (by decide) (by decide) (by decide)
    (by decide) (by decide) (by decide) (by decide) (by decide)
    rfl rfl rfl

/-- C8 counterexample: the handler does NOT catch a Translation Client
failure: with a failing upstream and a valid request, the handler's outcome
is the uncaught exception itself, not any HTTP response built by the
handler (in particular not a 5xx response with a generic message). -/
theorem upstream_failure_uncaught_cex :
    (translate (failingClient "connection refused") (some (.obj
      [("source_text", "Hello"), ("source_language", "English"),
       ("target_language", "French")]))).1 =
      .raised (.apiError "connection refused") :=
  rfl

/-- C8 (amended): for every request that passes validation but whose
translation-client call fails — the call itself erroring (network or
authentication failure), or a malformed upstream response with an empty
choices list or null message content — the failure propagates out of the
handler as an uncaught exception (no try/except exists in the handler);
any 5xx response comes from the surrounding framework, not from the
handler's own code. -/
theorem upstream_failure_propagates (client : Client)
    (fields : List (String × String)) (st sl tl e : String)
    (resp : ChatResponse) (c : Choice) (rest : List Choice)
    (hst : jsonGet fields "source_text" = some st)
    (hsl : jsonGet fields "source_language" = some sl)
    (htl : jsonGet fields "target_language" = some tl)
    (hstne : st ≠ "") (hslne : sl ≠ "") (htlne : tl ≠ "")
    (hslsent : sl ≠ "Select one") (htlsent : tl ≠ "Select one") :
    (client (translate_text_request st sl tl) = .error e →
      (translate client (some (.obj fields))).1 = .raised (.apiError e)) ∧
    (client (translate_text_request st sl tl) = .ok resp →
      resp.choices = [] →
      (translate client (some (.obj fields))).1 = .raised .indexError) ∧
    (client (translate_text_request st sl tl) = .ok resp →
      resp.choices = c :: rest → c.message.content = none →
      (translate client (some (.obj fields))).1 = .raised .attributeError) := by
  refine ⟨fun hcall => ?_, fun hcall hchoices => ?_,
    fun hcall hchoices hcontent => ?_⟩
  · have htt := translate_text_eq_of_error client st sl tl e hcall
    simp only [translate, dataGet, hst, hsl, htl, Option.some.injEq]
    rw [if_neg (not_or.mpr ⟨hslsent, htlsent⟩),
      if_neg (by simp [truthy, hstne, hslne, htlne]), htt]
  · have htt := translate_text_eq_of_no_choices client st sl tl resp
      hcall hchoices
    simp only [translate, dataGet, hst, hsl, htl, Option.some.injEq]
    rw [if_neg (not_or.mpr ⟨hslsent, htlsent⟩),
      if_neg (by simp [truthy, hstne, hslne, htlne]), htt]
  · have htt := translate_text_eq_of_null_content client st sl tl resp c rest
      hcall hchoices hcontent
    simp only [translate, dataGet, hst, hsl, htl, Option.some.injEq]
    rw [if_neg (not_or.mpr ⟨hslsent, htlsent⟩),
      if_neg (by simp [truthy, hstne, hslne, htlne]), htt]

/-- C8 witness: on one concrete valid request, each of the three upstream
failure kinds propagates as the corresponding uncaught exception: a failing
call as the API error, an empty choices list as IndexError, and null
message content as AttributeError. -/
theorem upstream_failure_propagates_witness :
    (translate (failingClient "auth rejected") (some (.obj
      [("source_text", "Hi"), ("source_language", "English"),
       ("target_language", "German")]))).1 =
      .raised (.apiError "auth rejected") ∧
    (translate emptyChoicesClient (some (.obj
      [("source_text", "Hi"), ("source_language", "English"),
       ("target_language", "German")]))).1 = .raised .indexError ∧
    (translate nullContentClient (some (.obj
      [("source_text", "Hi"), ("source_language", "English"),
       ("target_language", "German")]))).1 = .raised .attributeError :=
  ⟨(upstream_failure_propagates (failingClient "auth rejected")
      [("source_text", "Hi"), ("source_language", "English"),
       ("target_language", "German")]
      "Hi" "English" "German" "auth rejected" ⟨[]⟩ ⟨⟨none⟩⟩ []
      (by decide) (by decide) (by decide) (by decide) (by decide) (by decide)
      (by decide) (by decide)).1 rfl,
   (upstream_failure_propagates emptyChoicesClient
      [("source_text", "Hi"), ("source_language", "English"),
       ("target_language", "German")]
      "Hi" "English" "German" "unused" ⟨[]⟩ ⟨⟨none⟩⟩ []
      (by decide) (by decide) (by decide) (by decide) (by decide) (by decide)
      (by decide) (by decide)).2.1 rfl rfl,
   (upstream_failure_propagates nullContentClient
      [("source_text", "Hi"), ("source_language", "English"),
       ("target_language", "German")]
      "Hi" "English" "German" "unused" ⟨[⟨⟨none⟩⟩]⟩ ⟨⟨none⟩⟩ []
      (by decide) (by decide) (by decide) (by decide) (by decide) (by decide)
      (by decide) (by decide)).2.2 rfl rfl rfl⟩

/-- C9 counterexample: a body that is valid JSON but not an object (here the
JSON string "hello") does NOT get the 400 "Invalid JSON input" response:
attribute access on it raises AttributeError, which propagates uncaught. -/
theorem non_object_body_not_400_cex :
    (translate (stubClient "ok") (some (.str "hello"))).1 =
      .raised .attributeError ∧
    (translate (stubClient "ok") (some (.str "hello"))).1 ≠
      .response 400 [("error", "Invalid JSON input")] :=
  ⟨rfl, by decide⟩

/-- C9 (amended): a body that parses to no JSON object (invalid JSON / JSON
null, i.e. `get_json` gives None) yields 400 with "Invalid JSON input" and
zero outbound calls; a valid JSON body that is not an object instead raises
AttributeError uncaught, also with zero outbound calls. -/
theorem invalid_json_yields_400 (client : Client) (s : String) :
    translate client none =
      (.response 400 [("error", "Invalid JSON input")], []) ∧
    translate client (some (.str s)) = (.raised .attributeError, []) :=
  ⟨rfl, rfl⟩

/-- C10: the handler is a deterministic function of the request body given
the (read-only) client: in a run serving a list of request bodies, any two
identical bodies receive identical results; no state is carried from one
request to the next. -/
theorem identical_bodies_identical_responses (client : Client)
    (bodies : List (Option Json)) (i j : Nat)
    (hb : bodies[i]? = bodies[j]?) :
    (serve client bodies)[i]? = (serve client bodies)[j]? := by
  simp only [serve, List.getElem?_map, hb]

/-- C10 witness: in a run with the first and third bodies identical (and a
different body in between), the first and third results coincide. -/
theorem identical_bodies_identical_responses_witness :
    (serve (stubClient "Bonjour")
      [some (.obj [("source_text", "Hi"), ("source_language", "English"),
        ("target_language", "French")]),
       none,
       some (.obj [("source_text", "Hi"), ("source_language", "English"),
        ("target_language", "French")])])[0]? =
    (serve (stubClient "Bonjour")
      [some (.obj [("source_text", "Hi"), ("source_language", "English"),
        ("target_language", "French")]),
       none,
       some (.obj [("source_text", "Hi"), ("source_language", "English"),
        ("target_language", "French")])])[2]? :=
  identical_bodies_identical_responses (stubClient "Bonjour")
    [some (.obj [("source_text", "Hi"), ("source_language", "English"),
      ("target_language", "French")]),
     none,
     some (.obj [("source_text", "Hi"), ("source_language", "English"),
      ("target_language", "French")])]
    0 2 rfl

end Demo


